import Mathlib

/-
Verification of the eosjs transaction-pipeline core against its source.

Part 1 models `src/src/Signature.ts` (the signature format bridge).
Part 2 models `src/dist/eosjs-api.js` (the transaction orchestrator) as a
state-and-trace monad; every network call issued by the orchestrator is
recorded in the trace component of the state.

JavaScript numbers that the source only ever holds as integers are modelled
as `Int`/`Nat`; byte buffers as `List Nat` with entries below 256; `undefined`
and absent object properties via `Option`.
-/

namespace Eosjs

/-! ## Part 1: Signature.ts -/

/-- Modelled from the spec: the three key families of `eosjs-numeric.KeyType`
(that module is not among the sources): secp256k1, NIST P-256, WebAuthn. -/
inductive KeyType where
  | k1
  | r1
  | wa
deriving Repr, DecidableEq

/-- A `Key` as used by `Signature.ts`: a key type plus a byte sequence. -/
structure Key where
  type : KeyType
  data : List Nat
deriving Repr, DecidableEq

/-- The `(r, s, recoveryParam)` triple of an elliptic-library signature.
`r` and `s` are nonnegative big numbers (bn.js `BN`), `recoveryParam` a
JavaScript number. -/
structure EllipticSig where
  r : Nat
  s : Nat
  recoveryParam : Int
deriving Repr, DecidableEq

/-- Minimal-length big-endian byte expansion of a natural number; auxiliary
fuelled recursion (fuel 40 covers numbers below 2 ^ 320, far above the
256-bit values that occur). -/
def natToBytesBEAux : Nat → Nat → List Nat
  | 0, _ => []
  | fuel + 1, n => if n = 0 then [] else natToBytesBEAux fuel (n / 256) ++ [n % 256]

/-- bn.js `toArray()` called with no arguments, as in `Signature.fromElliptic`:
the minimal-length big-endian byte array of the number (at least one byte,
`[0]` for zero). Note the source does not request 32-byte padding. -/
def bnToArray (n : Nat) : List Nat :=
  if n = 0 then [0] else natToBytesBEAux 40 n

/-- Construction `new BN(bytes)` on a big-endian byte array. -/
def bnFromBytes (bytes : List Nat) : Nat :=
  bytes.foldl (fun acc b => acc * 256 + b) 0

/-- Coercion a JavaScript number undergoes when stored into a `Uint8Array`:
reduction to the least nonnegative residue modulo 256. -/
def toUint8 (x : Int) : Nat :=
  (x % 256).toNat

/-- JavaScript `x & 3` on an integer in 32-bit two's complement: the low two
bits, i.e. the least nonnegative residue modulo 4 (exact for every integer of
magnitude below 2 ^ 31, which covers all values arising here). -/
def jsAnd3 (x : Int) : Int :=
  x % 4

/-- `Signature.fromElliptic(ellipticSig, keyType)` from `src/src/Signature.ts`
lines 23-40: header-byte arithmetic per key type, then the data buffer
`[eosioRecoveryParam].concat(r, s)` stored as a `Uint8Array`. -/
def fromElliptic (ellipticSig : EllipticSig) (keyType : KeyType) : Key :=
  let r := bnToArray ellipticSig.r
  let s := bnToArray ellipticSig.s
  let eosioRecoveryParam : Int :=
    match keyType with
    | KeyType.k1 =>
      let base := ellipticSig.recoveryParam + 27
      if ellipticSig.recoveryParam ≤ 3 then base + 4 else base
    | KeyType.r1 => ellipticSig.recoveryParam
    | KeyType.wa => ellipticSig.recoveryParam
  { type := keyType
    data := toUint8 eosioRecoveryParam :: (r ++ s) }

/-- `Signature.prototype.toElliptic()` from `src/src/Signature.ts` lines 48-65:
`r = data.slice(1, 33)`, `s = data.slice(33, 65)`, recovery bit field per key
type from `data[0]`, and `recoveryParam = bitField & 3`. -/
def toElliptic (sig : Key) : EllipticSig :=
  let lengthOfR := 32
  let lengthOfS := 32
  let r := bnFromBytes ((sig.data.drop 1).take lengthOfR)
  let s := bnFromBytes ((sig.data.drop (lengthOfR + 1)).take lengthOfS)
  let ellipticRecoveryBitField : Int :=
    match sig.type with
    | KeyType.k1 =>
      let b : Int := (sig.data.headD 0 : Nat) - 27
      if b > 3 then b - 4 else b
    | KeyType.r1 => (sig.data.headD 0 : Nat)
    | KeyType.wa => (sig.data.headD 0 : Nat)
  { r := r
    s := s
    recoveryParam := jsAnd3 ellipticRecoveryBitField }

/-! ## Part 2: eosjs-api.js — data model -/

/-- A JavaScript value as it appears in the transaction fields the
orchestrator inspects: `undefined`, a number, a string, or a boolean. -/
inductive JsVal where
  | undef
  | vnum (n : Int)
  | vstr (s : String)
  | vbool (b : Bool)
deriving Repr, DecidableEq

/-- JavaScript truthiness of a `JsVal` (`NaN` does not arise in the modelled
fields). -/
def JsVal.truthy : JsVal → Bool
  | JsVal.undef => false
  | JsVal.vnum n => n != 0
  | JsVal.vstr s => s != ""
  | JsVal.vbool b => b

/-- The test `typeof v === 'number'`. -/
def JsVal.isNumber : JsVal → Bool
  | JsVal.vnum _ => true
  | _ => false

/-- Reading a possibly-absent object property: an absent property reads as
`undefined`. -/
def propVal (o : Option JsVal) : JsVal :=
  o.getD JsVal.undef

/-- Truthiness of a possibly-absent property. -/
def jsTruthy (o : Option JsVal) : Bool :=
  (propVal o).truthy

/-- Truthiness of an optional string (absent or empty string is falsy). -/
def truthyStr : Option String → Bool
  | some s => s != ""
  | none => false

/-- Truthiness of an optional integer-valued number (absent or zero is
falsy). -/
def truthyNum : Option Int → Bool
  | some n => n != 0
  | none => false

/-- JavaScript subtraction where either operand may be `undefined`/`NaN`
(modelled as `none`): any such operand poisons the result to `NaN`. -/
def jsSub : Option Int → Option Int → Option Int
  | some x, some y => some (x - y)
  | _, _ => none

/-- JavaScript `<=` where either operand may be `NaN` (`none`): any
comparison with `NaN` is false. -/
def jsLe : Option Int → Option Int → Bool
  | some x, some y => x ≤ y
  | _, _ => false

/-- An authorization entry of an action. -/
structure Authorization where
  actor : String
  permission : String
deriving Repr, DecidableEq

/-- An action of a transaction; `data` is structured before serialization and
a hex string afterwards, both held as a `JsVal`-tagged opaque value. -/
structure Action where
  account : String
  name : String
  authorization : List Authorization
  data : JsVal
deriving Repr, DecidableEq

/-- The transaction object as `transact` reads it. The three TAPoS fields are
possibly-absent properties; `context_free_actions` and `context_free_data`
are possibly-absent lists; remaining fields of the source's transaction shape
are not inspected by the orchestration logic and are omitted. The source field
written snake_case as ref-block-prefix is named `refBlockPrefix` here. -/
structure Transaction where
  expiration : Option JsVal := none
  ref_block_num : Option JsVal := none
  refBlockPrefix : Option JsVal := none
  context_free_actions : Option (List Action) := none
  actions : List Action := []
  context_free_data : Option (List (List Nat)) := none
deriving Repr, DecidableEq

/-- Result of `rpc.get_info()`: the fields the orchestrator reads. -/
structure ChainInfo where
  chain_id : String
  head_block_num : Int
  last_irreversible_block_num : Int
deriving Repr, DecidableEq

/-- The fields of a reference block header consumed by the external codec's
`transactionHeader` helper: the header time (modelled in whole seconds), the
block number, and the block's reference prefix. -/
structure BlockTaposInfo where
  time : Int
  block_num : Int
  refBlockPrefix : Int
deriving Repr, DecidableEq

/-- The three generated TAPoS header fields. -/
structure TaposHeader where
  expiration : JsVal
  ref_block_num : JsVal
  refBlockPrefix : JsVal
deriving Repr, DecidableEq

/-- Modelled from the spec: `ser.transactionHeader(refBlock, expireSeconds)`
of the external binary codec (`eosjs-serialize` is not among the sources):
the reference block's TAPoS fields together with
`expiration = header.time + expireSeconds` (section 4.2 of the spec). The
expiration date string is modelled by the decimal string of its
epoch-second value. -/
def transactionHeader (refBlock : BlockTaposInfo) (expireSeconds : Int) : TaposHeader :=
  { expiration := JsVal.vstr (toString (refBlock.time + expireSeconds))
    ref_block_num := JsVal.vnum refBlock.block_num
    refBlockPrefix := JsVal.vnum refBlock.refBlockPrefix }

/-- The merge `__assign(__assign({}, header), transaction)` at the end of
`generateTapos` (dist/eosjs-api.js line 529): generated header fields first,
the caller's own transaction properties applied last, so every property
present on the caller's transaction (even one explicitly set to `undefined`)
overrides the generated value; all other transaction fields pass through. -/
def mergeTransactionHeader (header : TaposHeader) (transaction : Transaction) : Transaction :=
  { transaction with
    expiration := some (transaction.expiration.getD header.expiration)
    ref_block_num := some (transaction.ref_block_num.getD header.ref_block_num)
    refBlockPrefix := some (transaction.refBlockPrefix.getD header.refBlockPrefix) }

/-- Modelled from the spec: the structured ABI produced by the external codec,
restricted to the parts this core reads (a version string and the action
name-to-type list). -/
structure AbiDef where
  version : String
  actions : List (String × String)
deriving Repr, DecidableEq

/-- A cached ABI entry: raw bytes plus structured form. -/
structure CachedAbi where
  rawAbi : List Nat
  abi : AbiDef
deriving Repr, DecidableEq

/-- An `{accountName, abi}` pair as returned by `getTransactionAbis`. -/
structure BinaryAbi where
  accountName : String
  abi : List Nat
deriving Repr, DecidableEq

/-- Modelled from the spec: the external codec's type registry, opaque to
this core. -/
structure TypeRegistry where
  reg : Nat
deriving Repr, DecidableEq

/-- Modelled from the spec: a type descriptor resolved from the registry,
opaque to this core. -/
structure TypeDesc where
  desc : Nat
deriving Repr, DecidableEq

/-- A contract descriptor: the type registry and the per-action type
descriptors (`Api.getContract`). -/
structure Contract where
  types : TypeRegistry
  actions : List (String × TypeDesc)
deriving Repr, DecidableEq

/-- Arguments handed to `signatureProvider.sign` (dist/eosjs-api.js lines
453-459). -/
structure SignArgs where
  chainId : Option String
  requiredKeys : List String
  serializedTransaction : List Nat
  serializedContextFreeData : Option (List Nat)
  abis : List BinaryAbi
deriving Repr, DecidableEq

/-- The `{signatures, serializedTransaction, serializedContextFreeData}`
triple. -/
structure PushTransactionArgs where
  signatures : List String
  serializedTransaction : List Nat
  serializedContextFreeData : Option (List Nat)
deriving Repr, DecidableEq

/-- Arguments of an `rpc.push_transaction` call (including the optional
compression flag). -/
structure PushCallArgs where
  signatures : List String
  compression : Option Nat
  serializedTransaction : List Nat
  serializedContextFreeData : Option (List Nat)
deriving Repr, DecidableEq

/-- Result of a `transact` call: a node receipt when broadcast, the unsent
triple otherwise. -/
inductive TransactOut where
  | receipt (r : Nat)
  | unsent (args : PushTransactionArgs)
deriving Repr, DecidableEq

/-- A network call issued by the orchestrator, as recorded in the trace. -/
inductive Call where
  | getInfo
  | getBlock (num : Option Int)
  | getBlockHeaderState (num : Option Int)
  | abiFetch (account : String)
  | getAvailableKeys
  | getRequiredKeys
  | signCall (requiredKeys : List String)
  | pushTransactionCall (compressed : Bool)
deriving Repr, DecidableEq

/-! ## Part 2: environment, state and trace monad -/

/-- The orchestrator's immutable environment: constructor arguments plus the
external collaborators (RPC transport, ABI/authority/signature providers, and
the external binary codec). Responses of the ABI provider may differ between
successive fetches; `getRawAbi` therefore also receives the number of fetches
already issued for that account. `requiredKeys` is the constructor-supplied
override list of the `Api` instance. -/
structure Env where
  get_info : ChainInfo
  get_block : Option Int → BlockTaposInfo
  get_block_header_state : Option Int → Except Unit BlockTaposInfo
  getRawAbi : String → Nat → Except String (List Nat)
  supportedAbiVersion : String → Bool
  getVersionString : List Nat → String
  deserializeAbiDef : List Nat → Except String AbiDef
  getTypesFromAbi : AbiDef → TypeRegistry
  getType : TypeRegistry → String → TypeDesc
  serializeActionData : Contract → Action → String
  serializeTx : Transaction → List Nat
  getAvailableKeys : List String
  getRequiredKeys : Transaction → List String → List String
  sign : SignArgs → PushTransactionArgs
  push_transaction : PushCallArgs → Nat
  deflate : List Nat → List Nat
  requiredKeys : Option (List String)

/-- The orchestrator's mutable state: the lazily-cached chain id, the two
caches, and the trace of network calls issued so far. -/
structure TrState where
  chainId : Option String
  cachedAbis : List (String × CachedAbi)
  contracts : List (String × Contract)
  trace : List Call
deriving Repr, DecidableEq

/-- Computation in the orchestrator: state threading with string-message
exceptions; the state (in particular the trace) survives a thrown error. -/
def TrM (α : Type) : Type :=
  TrState → Except String α × TrState

/-- Monadic unit for `TrM`. -/
def TrM.mkPure {α : Type} (a : α) : TrM α :=
  fun s => (Except.ok a, s)

/-- Monadic sequencing for `TrM`: propagate the first error, keeping its
state. -/
def TrM.mkBind {α β : Type} (x : TrM α) (f : α → TrM β) : TrM β :=
  fun s =>
    match x s with
    | (Except.ok a, s1) => f a s1
    | (Except.error e, s1) => (Except.error e, s1)

instance : Monad TrM where
  pure := TrM.mkPure
  bind := TrM.mkBind

/-- Throw an error (a JavaScript `throw new Error(msg)`). -/
def TrM.throwErr {α : Type} (msg : String) : TrM α :=
  fun s => (Except.error msg, s)

/-- Read the current state. -/
def TrM.getSt : TrM TrState :=
  fun s => (Except.ok s, s)

/-- Update the state. -/
def TrM.modifySt (f : TrState → TrState) : TrM Unit :=
  fun s => (Except.ok (), f s)

/-- Record a network call in the trace. -/
def TrM.emit (c : Call) : TrM Unit :=
  fun s => (Except.ok (), { s with trace := s.trace ++ [c] })

/-- Sequential traversal modelling a JavaScript `Promise.all` over a mapped
list against a deterministic environment. -/
def trMapM {α β : Type} (f : α → TrM β) : List α → TrM (List β)
  | [] => pure []
  | a :: rest => do
    let b ← f a
    let bs ← trMapM f rest
    pure (b :: bs)

/-- Insert-or-replace in an association list (a JavaScript `Map.set`). -/
def mapSet {α : Type} : List (String × α) → String → α → List (String × α)
  | [], k, v => [(k, v)]
  | (k1, v1) :: rest, k, v =>
    if k1 = k then (k, v) :: rest else (k1, v1) :: mapSet rest k v

/-- De-duplication keeping first occurrences, in insertion order (a JavaScript
`Set` built from a list). -/
def jsSetOfList (l : List String) : List String :=
  l.foldl (fun acc a => if acc.contains a then acc else acc ++ [a]) []

/-- Number of ABI fetches already issued for `account` in a trace; indexes the
environment's per-fetch ABI responses. -/
def countAbiFetches (trace : List Call) (account : String) : Nat :=
  (trace.filter (fun c => c == Call.abiFetch account)).length

/-! ## Part 2: serialization helpers of the orchestrator -/

/-- One round of the varuint32 push loop; fuelled structural recursion. -/
def pushVaruint32Loop : Nat → Nat → List Nat
  | 0, v => [v &&& 0x7f]
  | fuel + 1, v =>
    if v >>> 7 != 0 then (0x80 ||| (v &&& 0x7f)) :: pushVaruint32Loop fuel (v >>> 7)
    else [v &&& 0x7f]

/-- Modelled from the spec: `SerialBuffer.pushVaruint32` of the external
binary codec (`eosjs-serialize` is not among the sources): the LEB128
variable-length encoding of a 32-bit count (five 7-bit groups suffice for any
32-bit value, hence fuel 5). -/
def pushVaruint32 (v : Nat) : List Nat :=
  pushVaruint32Loop 5 v

/-- Modelled from the spec: the bytes `SerialBuffer.pushBytes` appends for one
context-free-data item per the spec's words, "a varint item-count followed by
each item's raw bytes concatenated" with "no padding between items" (sections
4.3 and 8): the item's raw bytes, verbatim. -/
def pushBytes (data : List Nat) : List Nat :=
  data

/-- `Api.prototype.serializeContextFreeData` (dist/eosjs-api.js lines
269-290): `null` for an absent or empty input, otherwise a varuint32 item
count followed by each item pushed via `pushBytes`. -/
def serializeContextFreeData (contextFreeData : Option (List (List Nat))) : Option (List Nat) :=
  match contextFreeData with
  | none => none
  | some items =>
    if items.length = 0 then none
    else some (items.foldl (fun buffer data => buffer ++ pushBytes data) (pushVaruint32 items.length))

/-- `Api.prototype.serializeTransaction` (dist/eosjs-api.js lines 263-267):
apply the serialization defaults (for the fields this model carries, an absent
`context_free_actions` list defaults to `[]`) and hand the result to the
external codec's transaction type. -/
def serializeTransaction (env : Env) (transaction : Transaction) : List Nat :=
  env.serializeTx { transaction with context_free_actions := some (transaction.context_free_actions.getD []) }

/-- `Api.prototype.rawAbiToJson` (dist/eosjs-api.js lines 119-130): validate
the version string at the head of the buffer, then deserialize `abi_def`; the
codec operations themselves are environment parameters (modelled from the
spec, `eosjs-serialize` is not among the sources). -/
def rawAbiToJson (env : Env) (rawAbi : List Nat) : Except String AbiDef :=
  if !(env.supportedAbiVersion (env.getVersionString rawAbi)) then
    Except.error "Unsupported abi version"
  else
    env.deserializeAbiDef rawAbi

/-! ## Part 2: ABI caches and TAPoS generation -/

/-- `Api.prototype.getCachedAbi` (dist/eosjs-api.js lines 144-176): return
the cached entry unless `reload` is set or no entry exists; otherwise fetch
the raw ABI, decode it, and store `{rawAbi, abi}`. A failure of the fetch or
of the decode is rewrapped with the account name. The source's post-try check
`if (!cachedAbi) throw new Error('Missing abi ...')` is vacuous on the
success path (the object was just built) and needs no counterpart here. -/
def getCachedAbi (env : Env) (accountName : String) (reload : Bool) : TrM CachedAbi := do
  let st ← TrM.getSt
  match reload, st.cachedAbis.lookup accountName with
  | false, some cachedAbi => pure cachedAbi
  | _, _ => do
    TrM.emit (Call.abiFetch accountName)
    match env.getRawAbi accountName (countAbiFetches st.trace accountName) with
    | Except.error msg => TrM.throwErr ("fetching abi for " ++ accountName ++ ": " ++ msg)
    | Except.ok rawAbi =>
      match rawAbiToJson env rawAbi with
      | Except.error msg => TrM.throwErr ("fetching abi for " ++ accountName ++ ": " ++ msg)
      | Except.ok abi => do
        let cachedAbi : CachedAbi := { rawAbi := rawAbi, abi := abi }
        TrM.modifySt (fun s => { s with cachedAbis := mapSet s.cachedAbis accountName cachedAbi })
        pure cachedAbi

/-- `Api.prototype.getAbi` (dist/eosjs-api.js lines 178-188). -/
def getAbi (env : Env) (accountName : String) (reload : Bool) : TrM AbiDef := do
  let cachedAbi ← getCachedAbi env accountName reload
  pure cachedAbi.abi

/-- `Api.prototype.getTransactionAbis` (dist/eosjs-api.js lines 190-216):
fan-out over the unique accounts of `context_free_actions ++ actions`. -/
def getTransactionAbis (env : Env) (transaction : Transaction) (reload : Bool) : TrM (List BinaryAbi) := do
  let actions := transaction.context_free_actions.getD [] ++ transaction.actions
  let accounts := actions.map (fun action => action.account)
  let uniqueAccounts := jsSetOfList accounts
  trMapM (fun account => do
    let cachedAbi ← getCachedAbi env account reload
    pure { accountName := account, abi := cachedAbi.rawAbi : BinaryAbi }) uniqueAccounts

/-- `Api.prototype.getContract` (dist/eosjs-api.js lines 218-253): return the
cached descriptor unless `reload` is set or no entry exists; otherwise derive
`{types, actions}` from the (possibly refetched) ABI and store it. -/
def getContract (env : Env) (accountName : String) (reload : Bool) : TrM Contract := do
  let st ← TrM.getSt
  match reload, st.contracts.lookup accountName with
  | false, some contract => pure contract
  | _, _ => do
    let abi ← getAbi env accountName reload
    let types := env.getTypesFromAbi abi
    let actions := abi.actions.map (fun nt => (nt.1, env.getType types nt.2))
    let result : Contract := { types := types, actions := actions }
    TrM.modifySt (fun s => { s with contracts := mapSet s.contracts accountName result })
    pure result

/-- `Api.prototype.serializeActions` (dist/eosjs-api.js lines 298-321): for
each action, fetch its contract descriptor and replace `data` with the hex
string produced by the external codec's `serializeAction`. -/
def serializeActions (env : Env) (actions : List Action) : TrM (List Action) :=
  trMapM (fun action => do
    let contract ← getContract env action.account false
    pure { action with data := JsVal.vstr (env.serializeActionData contract action) }) actions

/-- `Api.prototype.tryGetBlockHeaderState` (dist/eosjs-api.js lines 539-556):
attempt `get_block_header_state`; on failure fall back to `get_block` for the
same block number. -/
def tryGetBlockHeaderState (env : Env) (taposBlockNumber : Option Int) : TrM BlockTaposInfo := do
  TrM.emit (Call.getBlockHeaderState taposBlockNumber)
  match env.get_block_header_state taposBlockNumber with
  | Except.ok refBlock => pure refBlock
  | Except.error _ => do
    TrM.emit (Call.getBlock taposBlockNumber)
    pure (env.get_block taposBlockNumber)

/-- `Api.prototype.generateTapos` (dist/eosjs-api.js lines 504-533): fetch
chain info unless supplied, select the reference block number, fetch the
reference block (directly when at or below the last irreversible number,
otherwise via the block-header-state path), and merge the generated header
under the caller's transaction. -/
def generateTapos (env : Env) (info : Option ChainInfo) (transaction : Transaction)
    (blocksBehind : Option Int) (useLastIrreversible : Bool) (expireSeconds : Int) :
    TrM Transaction := do
  let chainInfo ←
    match info with
    | some i => pure i
    | none => do
      TrM.emit Call.getInfo
      pure env.get_info
  let taposBlockNumber : Option Int :=
    if useLastIrreversible then some chainInfo.last_irreversible_block_num
    else jsSub (some chainInfo.head_block_num) blocksBehind
  let refBlock ←
    if jsLe taposBlockNumber (some chainInfo.last_irreversible_block_num) then do
      TrM.emit (Call.getBlock taposBlockNumber)
      pure (env.get_block taposBlockNumber)
    else
      tryGetBlockHeaderState env taposBlockNumber
  pure (mergeTransactionHeader (transactionHeader refBlock expireSeconds) transaction)

/-- `Api.prototype.hasRequiredTaposFields` (dist/eosjs-api.js lines 535-538):
`!!(expiration && typeof ref_block_num === 'number' && typeof
ref_block_prefix === 'number')`. -/
def hasRequiredTaposFields (transaction : Transaction) : Bool :=
  jsTruthy transaction.expiration
    && (propVal transaction.ref_block_num).isNumber
    && (propVal transaction.refBlockPrefix).isNumber

/-! ## Part 2: broadcast and transact -/

/-- `Api.prototype.pushSignedTransaction` (dist/eosjs-api.js lines 476-487). -/
def pushSignedTransaction (env : Env) (args : PushTransactionArgs) : TrM TransactOut := do
  TrM.emit (Call.pushTransactionCall false)
  pure (TransactOut.receipt (env.push_transaction
    { signatures := args.signatures
      compression := none
      serializedTransaction := args.serializedTransaction
      serializedContextFreeData := args.serializedContextFreeData }))

/-- `Api.prototype.pushCompressedSignedTransaction` (dist/eosjs-api.js lines
488-503): DEFLATE both buffers (the context-free one defaulting to empty) and
submit with compression flag 1. -/
def pushCompressedSignedTransaction (env : Env) (args : PushTransactionArgs) : TrM TransactOut := do
  let compressedSerializedTransaction := env.deflate args.serializedTransaction
  let compressedSerializedContextFreeData := env.deflate (args.serializedContextFreeData.getD [])
  TrM.emit (Call.pushTransactionCall true)
  pure (TransactOut.receipt (env.push_transaction
    { signatures := args.signatures
      compression := some 1
      serializedTransaction := compressedSerializedTransaction
      serializedContextFreeData := some compressedSerializedContextFreeData }))

/-- The per-call configuration object of `transact`
(src/src/eosjs-api-interfaces.ts lines 87-95); every field optional. -/
structure TransactConfig where
  broadcast : Option Bool := none
  sign : Option Bool := none
  requiredKeys : Option (List String) := none
  compression : Option Bool := none
  blocksBehind : Option Int := none
  useLastIrreversible : Option Bool := none
  expireSeconds : Option Int := none
deriving Repr, DecidableEq

/-- `Api.prototype.transact` (dist/eosjs-api.js lines 395-474), step by step:
the destructuring defaults (`broadcast = true`, `sign = true`), the
mutually-exclusive strategy guard, lazy chain-id resolution, the TAPoS
completion branch with its truthiness test and the `hasRequiredTaposFields`
check, ABI collection, action serialization, transaction and
context-free-data serialization, the signing round (constructor-supplied
required-keys override, else the authority provider), and the final broadcast
or return. The destructuring reads exactly the source's six fields; the
config's `requiredKeys` member is not among them. -/
def transact (env : Env) (transaction0 : Transaction) (cfg : TransactConfig) : TrM TransactOut := do
  let broadcast := cfg.broadcast.getD true
  let sign := cfg.sign.getD true
  let compression := cfg.compression.getD false
  let blocksBehind := cfg.blocksBehind
  let useLastIrreversible := cfg.useLastIrreversible.getD false
  let expireSeconds := cfg.expireSeconds
  if blocksBehind.isSome && useLastIrreversible then
    TrM.throwErr "Use either blocksBehind or useLastIrreversible"
  else do
    let st ← TrM.getSt
    let info : Option ChainInfo ←
      if truthyStr st.chainId then pure none
      else do
        TrM.emit Call.getInfo
        let i := env.get_info
        TrM.modifySt (fun s => { s with chainId := some i.chain_id })
        pure (some i)
    let transaction1 ←
      if !(jsTruthy transaction0.ref_block_num) || !(jsTruthy transaction0.refBlockPrefix)
          || !(jsTruthy transaction0.expiration) then do
        let transactionA ←
          if (blocksBehind.isSome || useLastIrreversible) && truthyNum expireSeconds then
            generateTapos env info transaction0 blocksBehind useLastIrreversible (expireSeconds.getD 0)
          else pure transaction0
        if !(hasRequiredTaposFields transactionA) then
          TrM.throwErr "Required configuration or TAPOS fields are not present"
        else pure transactionA
      else pure transaction0
    let abis ← getTransactionAbis env transaction1 false
    let serializedContextFreeActions ← serializeActions env (transaction1.context_free_actions.getD [])
    let serializedActionList ← serializeActions env transaction1.actions
    let transaction2 :=
      { transaction1 with
        context_free_actions := some serializedContextFreeActions
        actions := serializedActionList }
    let serializedTransaction := serializeTransaction env transaction2
    let serializedContextFreeData := serializeContextFreeData transaction2.context_free_data
    let pushArgs0 : PushTransactionArgs :=
      { signatures := []
        serializedTransaction := serializedTransaction
        serializedContextFreeData := serializedContextFreeData }
    let pushArgs ←
      if sign then do
        TrM.emit Call.getAvailableKeys
        let availableKeys := env.getAvailableKeys
        let requiredKeys ←
          if env.requiredKeys.isSome then
            pure (env.requiredKeys.getD [])
          else do
            TrM.emit Call.getRequiredKeys
            pure (env.getRequiredKeys transaction2 availableKeys)
        let st2 ← TrM.getSt
        TrM.emit (Call.signCall requiredKeys)
        pure (env.sign
          { chainId := st2.chainId
            requiredKeys := requiredKeys
            serializedTransaction := serializedTransaction
            serializedContextFreeData := serializedContextFreeData
            abis := abis })
      else pure pushArgs0
    if broadcast then
      if compression then pushCompressedSignedTransaction env pushArgs
      else pushSignedTransaction env pushArgs
    else pure (TransactOut.unsent pushArgs)

/-! ## Derived characterizations used by the theorems -/

/-- The reference block number `generateTapos` computes: the last irreversible
block number when `useLastIrreversible` is set, else head minus
`blocksBehind`. -/
def taposBlockNumberOf (chainInfo : ChainInfo) (blocksBehind : Option Int)
    (useLastIrreversible : Bool) : Option Int :=
  if useLastIrreversible then some chainInfo.last_irreversible_block_num
  else jsSub (some chainInfo.head_block_num) blocksBehind

/-- The reference block `generateTapos` ends up using against a given
environment. -/
def taposRefBlock (env : Env) (chainInfo : ChainInfo) (tbn : Option Int) : BlockTaposInfo :=
  if jsLe tbn (some chainInfo.last_irreversible_block_num) then env.get_block tbn
  else
    match env.get_block_header_state tbn with
    | Except.ok rb => rb
    | Except.error _ => env.get_block tbn

/-- The block-fetch calls `generateTapos` issues against a given
environment. -/
def taposFetchCalls (env : Env) (chainInfo : ChainInfo) (tbn : Option Int) : List Call :=
  if jsLe tbn (some chainInfo.last_irreversible_block_num) then [Call.getBlock tbn]
  else
    match env.get_block_header_state tbn with
    | Except.ok _ => [Call.getBlockHeaderState tbn]
    | Except.error _ => [Call.getBlockHeaderState tbn, Call.getBlock tbn]

/-! ## Concrete instances used by the witnesses -/

/-- A concrete structured ABI for instantiating theorems. -/
def sampleAbiDef : AbiDef :=
  { version := "eosio::abi/1.1", actions := [("transfer", "transfer")] }

/-- A concrete environment for instantiating the universally quantified
theorems on executable inputs. Its ABI provider returns `[n]` on the n-th
fetch for an account, so successive fetches are distinguishable, and its
block-header-state endpoint always fails, exercising the fallback path. -/
def sampleEnv : Env :=
  { get_info := { chain_id := "cid", head_block_num := 100, last_irreversible_block_num := 90 }
    get_block := fun _ => { time := 1000, block_num := 97, refBlockPrefix := 42 }
    get_block_header_state := fun _ => Except.error ()
    getRawAbi := fun _ n => Except.ok [n]
    supportedAbiVersion := fun _ => true
    getVersionString := fun _ => "eosio::abi/1.1"
    deserializeAbiDef := fun _ => Except.ok sampleAbiDef
    getTypesFromAbi := fun _ => { reg := 0 }
    getType := fun _ _ => { desc := 0 }
    serializeActionData := fun _ _ => "00"
    serializeTx := fun _ => [1, 2, 3]
    getAvailableKeys := ["AVAILKEY"]
    getRequiredKeys := fun _ _ => ["REQKEY"]
    sign := fun args =>
      { signatures := ["SIG"]
        serializedTransaction := args.serializedTransaction
        serializedContextFreeData := args.serializedContextFreeData }
    push_transaction := fun _ => 7
    deflate := fun l => l
    requiredKeys := none }

/-- A concrete starting state with the chain id already cached and empty
caches and trace. -/
def sampleState : TrState :=
  { chainId := some "cid", cachedAbis := [], contracts := [], trace := [] }

/-- A concrete transaction whose three TAPoS fields are all present. -/
def sampleCompleteTx : Transaction :=
  { expiration := some (JsVal.vstr "2026-01-01T00:00:00")
    ref_block_num := some (JsVal.vnum 9)
    refBlockPrefix := some (JsVal.vnum 6) }

/-! ## Theorems -/

/-- Helper: how a `TrM` bind runs on a state. -/
theorem TrM.bind_apply {α β : Type} (x : TrM α) (f : α → TrM β) (s : TrState) :
    (x >>= f) s =
      match x s with
      | (Except.ok a, s1) => f a s1
      | (Except.error e, s1) => (Except.error e, s1) := rfl

/-- Helper: how a `TrM` pure runs on a state. -/
theorem TrM.pure_apply {α : Type} (a : α) (s : TrState) :
    (pure a : TrM α) s = (Except.ok a, s) := rfl

/-- Helper: a JavaScript two-bit mask always lands in {0, 1, 2, 3}. -/
theorem jsAnd3_mem (x : Int) : jsAnd3 x ∈ ([0, 1, 2, 3] : List Int) := by
  simp only [jsAnd3, List.mem_cons, List.not_mem_nil, or_false]
  omega

/-- C1: the claimed 65-byte zero-padded buffer and r/s round-trip fail on the
code. `Signature.fromElliptic` calls bn.js `toArray()` with no padding
arguments, so at `{r: 1, s: 1, recoveryParam: 0}` under key type k1 it builds
the 3-byte buffer `[31, 1, 1]`, and `toElliptic` — which slices at the fixed
offsets 1..33 and 33..65 of a 65-byte layout — recovers r = 257 and s = 0
instead of the original 1 and 1. The recovery-parameter part of the
round-trip alone survives, since the header byte stays at index 0. -/
theorem c1_fromElliptic_not_padded :
    (fromElliptic { r := 1, s := 1, recoveryParam := 0 } KeyType.k1).data = [31, 1, 1] ∧
    (fromElliptic { r := 1, s := 1, recoveryParam := 0 } KeyType.k1).data.length ≠ 65 ∧
    (toElliptic (fromElliptic { r := 1, s := 1, recoveryParam := 0 } KeyType.k1)).r = 257 ∧
    (toElliptic (fromElliptic { r := 1, s := 1, recoveryParam := 0 } KeyType.k1)).s = 0 ∧
    (toElliptic (fromElliptic { r := 1, s := 1, recoveryParam := 0 } KeyType.k1)).recoveryParam = 0 := by
  decide

/-- C2: for k1, every recoveryParam in {0, 1, 2, 3} yields a header byte in
{31, 32, 33, 34}; for r1 and wa the header byte equals the recoveryParam
unchanged (for any byte-range value); and `toElliptic` returns a
recoveryParam in {0, 1, 2, 3} for every stored signature of any of the three
types. -/
theorem c2_header_rules :
    (∀ (r s : Nat) (p : Int), 0 ≤ p → p ≤ 3 →
      (fromElliptic { r := r, s := s, recoveryParam := p } KeyType.k1).data.headD 0 ∈ [31, 32, 33, 34]) ∧
    (∀ (r s : Nat) (p : Int) (t : KeyType), 0 ≤ p → p ≤ 255 →
      (t = KeyType.r1 ∨ t = KeyType.wa) →
      (fromElliptic { r := r, s := s, recoveryParam := p } t).data.headD 0 = p.toNat) ∧
    (∀ (t : KeyType) (data : List Nat),
      (toElliptic { type := t, data := data }).recoveryParam ∈ ([0, 1, 2, 3] : List Int)) := by
  refine ⟨?_, ?_, ?_⟩
  · intro r s p h0 h3
    simp only [fromElliptic, List.headD_cons]
    rw [if_pos h3]
    interval_cases p <;> decide
  · intro r s p t h0 h255 ht
    rcases ht with ht | ht <;> subst ht <;>
      simp only [fromElliptic, List.headD_cons, toUint8] <;>
      omega
  · intro t data
    cases t <;> simp only [toElliptic] <;> exact jsAnd3_mem _

/-- C2 witness: the header rules instantiated at recoveryParam 2 with small
r and s. -/
theorem c2_header_rules_witness :
    (fromElliptic { r := 1, s := 1, recoveryParam := 2 } KeyType.k1).data.headD 0 ∈ [31, 32, 33, 34] ∧
    (fromElliptic { r := 1, s := 1, recoveryParam := 2 } KeyType.r1).data.headD 0 = (2 : Int).toNat ∧
    (toElliptic { type := KeyType.wa, data := [2, 5, 5] }).recoveryParam ∈ ([0, 1, 2, 3] : List Int) :=
  ⟨c2_header_rules.1 1 1 2 (by decide) (by decide),
   c2_header_rules.2.1 1 1 2 KeyType.r1 (by decide) (by decide) (Or.inl rfl),
   c2_header_rules.2.2 KeyType.wa [2, 5, 5]⟩

/-- C7: `serializeContextFreeData` yields no buffer for an absent or empty
input, and for a two-item list the varuint32 count 2 (the single byte `[2]`)
followed by the items' raw bytes, verbatim, with nothing between them. -/
theorem c7_serializeContextFreeData :
    serializeContextFreeData none = none ∧
    serializeContextFreeData (some []) = none ∧
    pushVaruint32 2 = [2] ∧
    (∀ (A B : List Nat),
      serializeContextFreeData (some [A, B]) = some (pushVaruint32 2 ++ A ++ B)) := by
  refine ⟨rfl, rfl, rfl, ?_⟩
  intro A B
  simp [serializeContextFreeData, pushBytes, List.append_assoc]

/-- Helper: closed-form characterization of one `generateTapos` run. -/
theorem generateTapos_run (env : Env) (info : Option ChainInfo) (transaction : Transaction)
    (blocksBehind : Option Int) (useLastIrreversible : Bool) (expireSeconds : Int) (s0 : TrState) :
    generateTapos env info transaction blocksBehind useLastIrreversible expireSeconds s0 =
      (Except.ok (mergeTransactionHeader
          (transactionHeader
            (taposRefBlock env (info.getD env.get_info)
              (taposBlockNumberOf (info.getD env.get_info) blocksBehind useLastIrreversible))
            expireSeconds)
          transaction),
       { s0 with
          trace := s0.trace
              ++ (match info with | some _ => [] | none => [Call.getInfo])
              ++ taposFetchCalls env (info.getD env.get_info)
                  (taposBlockNumberOf (info.getD env.get_info) blocksBehind useLastIrreversible) }) := by
  rcases info with _ | i <;>
    simp only [generateTapos, Option.getD, TrM.bind_apply, TrM.pure_apply, TrM.emit,
      bind, pure, TrM.mkBind, TrM.mkPure, taposBlockNumberOf, taposRefBlock, taposFetchCalls]
  · generalize (if useLastIrreversible = true then some env.get_info.last_irreversible_block_num
      else jsSub (some env.get_info.head_block_num) blocksBehind) = tbn
    cases hjs : jsLe tbn (some env.get_info.last_irreversible_block_num) <;>
      cases hbs : env.get_block_header_state tbn <;>
      simp [hjs, hbs, tryGetBlockHeaderState, List.append_assoc, TrM.bind_apply,
        TrM.pure_apply, TrM.emit, bind, pure, TrM.mkBind, TrM.mkPure]
  · generalize (if useLastIrreversible = true then some i.last_irreversible_block_num
      else jsSub (some i.head_block_num) blocksBehind) = tbn
    cases hjs : jsLe tbn (some i.last_irreversible_block_num) <;>
      cases hbs : env.get_block_header_state tbn <;>
      simp [hjs, hbs, tryGetBlockHeaderState, List.append_assoc, TrM.bind_apply,
        TrM.pure_apply, TrM.emit, bind, pure, TrM.mkBind, TrM.mkPure]

/-- C5: `generateTapos` always returns the merge of the generated TAPoS
header under the caller's transaction, and in that merge every field present
on the caller's transaction keeps exactly the caller's value, while generated
values appear only at fields the caller's transaction does not itself carry;
all other transaction fields pass through unchanged. -/
theorem c5_generateTapos_merge (env : Env) (info : Option ChainInfo) (transaction : Transaction)
    (blocksBehind : Option Int) (useLastIrreversible : Bool) (expireSeconds : Int) (s0 : TrState) :
    (∃ refBlock : BlockTaposInfo,
      (generateTapos env info transaction blocksBehind useLastIrreversible expireSeconds s0).1 =
        Except.ok (mergeTransactionHeader (transactionHeader refBlock expireSeconds) transaction)) ∧
    (∀ header : TaposHeader,
      (∀ v, transaction.expiration = some v →
        (mergeTransactionHeader header transaction).expiration = some v) ∧
      (∀ v, transaction.ref_block_num = some v →
        (mergeTransactionHeader header transaction).ref_block_num = some v) ∧
      (∀ v, transaction.refBlockPrefix = some v →
        (mergeTransactionHeader header transaction).refBlockPrefix = some v) ∧
      (transaction.expiration = none →
        (mergeTransactionHeader header transaction).expiration = some header.expiration) ∧
      (transaction.ref_block_num = none →
        (mergeTransactionHeader header transaction).ref_block_num = some header.ref_block_num) ∧
      (transaction.refBlockPrefix = none →
        (mergeTransactionHeader header transaction).refBlockPrefix = some header.refBlockPrefix) ∧
      (mergeTransactionHeader header transaction).context_free_actions = transaction.context_free_actions ∧
      (mergeTransactionHeader header transaction).actions = transaction.actions ∧
      (mergeTransactionHeader header transaction).context_free_data = transaction.context_free_data) := by
  constructor
  · refine ⟨taposRefBlock env (info.getD env.get_info)
      (taposBlockNumberOf (info.getD env.get_info) blocksBehind useLastIrreversible), ?_⟩
    rw [generateTapos_run]
  · intro header
    refine ⟨?_, ?_, ?_, ?_, ?_, ?_, ?_, ?_, ?_⟩ <;>
      first
        | (intro v hv; simp [mergeTransactionHeader, hv])
        | (intro hv; simp [mergeTransactionHeader, hv])
        | simp [mergeTransactionHeader]

/-- C5 witness: the merge law instantiated at the sample environment with a
transaction that carries all TAPoS fields (the caller's expiration survives)
and at the empty transaction (the generated expiration appears). -/
theorem c5_generateTapos_merge_witness :
    (∃ refBlock : BlockTaposInfo,
      (generateTapos sampleEnv none sampleCompleteTx none true 30 sampleState).1 =
        Except.ok (mergeTransactionHeader (transactionHeader refBlock 30) sampleCompleteTx)) ∧
    (mergeTransactionHeader (transactionHeader (sampleEnv.get_block (some 90)) 30)
        sampleCompleteTx).expiration = some (JsVal.vstr "2026-01-01T00:00:00") ∧
    (mergeTransactionHeader (transactionHeader (sampleEnv.get_block (some 90)) 30)
        ({} : Transaction)).expiration =
      some (transactionHeader (sampleEnv.get_block (some 90)) 30).expiration :=
  ⟨(c5_generateTapos_merge sampleEnv none sampleCompleteTx none true 30 sampleState).1,
   ((c5_generateTapos_merge sampleEnv none sampleCompleteTx none true 30 sampleState).2
      (transactionHeader (sampleEnv.get_block (some 90)) 30)).1
     (JsVal.vstr "2026-01-01T00:00:00") rfl,
   ((c5_generateTapos_merge sampleEnv none ({} : Transaction) none true 30 sampleState).2
      (transactionHeader (sampleEnv.get_block (some 90)) 30)).2.2.2.1 rfl⟩

/-- C6: `generateTapos` computes the reference block number as the last
irreversible block number when `useLastIrreversible` is set and as
`head_block_num - blocksBehind` otherwise; at or below the last irreversible
number it fetches the block directly via `get_block`; above it, it calls
`get_block_header_state`, and exactly when that call fails it falls back to
`get_block` for the same block number. -/
theorem c6_generateTapos_block_selection (env : Env) (i : ChainInfo) (transaction : Transaction)
    (bb : Option Int) (b : Int) (expireSeconds : Int) (s0 : TrState) :
    ((generateTapos env (some i) transaction bb true expireSeconds s0).2.trace =
      s0.trace ++ [Call.getBlock (some i.last_irreversible_block_num)]) ∧
    (i.head_block_num - b ≤ i.last_irreversible_block_num →
      (generateTapos env (some i) transaction (some b) false expireSeconds s0).2.trace =
        s0.trace ++ [Call.getBlock (some (i.head_block_num - b))]) ∧
    (∀ refBlock : BlockTaposInfo,
      i.last_irreversible_block_num < i.head_block_num - b →
      env.get_block_header_state (some (i.head_block_num - b)) = Except.ok refBlock →
      (generateTapos env (some i) transaction (some b) false expireSeconds s0).2.trace =
        s0.trace ++ [Call.getBlockHeaderState (some (i.head_block_num - b))]) ∧
    (i.last_irreversible_block_num < i.head_block_num - b →
      env.get_block_header_state (some (i.head_block_num - b)) = Except.error () →
      (generateTapos env (some i) transaction (some b) false expireSeconds s0).2.trace =
        s0.trace ++ [Call.getBlockHeaderState (some (i.head_block_num - b)),
          Call.getBlock (some (i.head_block_num - b))]) := by
  refine ⟨?_, ?_, ?_, ?_⟩
  · rw [generateTapos_run]
    simp [taposBlockNumberOf, taposFetchCalls, jsLe]
  · intro hle
    rw [generateTapos_run]
    simp [taposBlockNumberOf, taposFetchCalls, jsSub, jsLe, hle]
  · intro refBlock hlt hbs
    rw [generateTapos_run]
    have hnle : ¬(i.head_block_num - b ≤ i.last_irreversible_block_num) := by omega
    simp [taposBlockNumberOf, taposFetchCalls, jsSub, jsLe, hnle, hbs]
  · intro hlt hbs
    rw [generateTapos_run]
    have hnle : ¬(i.head_block_num - b ≤ i.last_irreversible_block_num) := by omega
    simp [taposBlockNumberOf, taposFetchCalls, jsSub, jsLe, hnle, hbs]

/-- C6 witness: the three fetch behaviours at the sample chain info (head
100, last irreversible 90): last-irreversible selection, a direct fetch of
block 85, and the header-state fallback at block 97. -/
theorem c6_generateTapos_block_selection_witness :
    ((generateTapos sampleEnv (some sampleEnv.get_info) {} none true 30 sampleState).2.trace =
      sampleState.trace ++ [Call.getBlock (some sampleEnv.get_info.last_irreversible_block_num)]) ∧
    ((generateTapos sampleEnv (some sampleEnv.get_info) {} (some 15) false 30 sampleState).2.trace =
      sampleState.trace ++ [Call.getBlock (some (sampleEnv.get_info.head_block_num - 15))]) ∧
    ((generateTapos sampleEnv (some sampleEnv.get_info) {} (some 3) false 30 sampleState).2.trace =
      sampleState.trace ++ [Call.getBlockHeaderState (some (sampleEnv.get_info.head_block_num - 3)),
        Call.getBlock (some (sampleEnv.get_info.head_block_num - 3))]) :=
  ⟨(c6_generateTapos_block_selection sampleEnv sampleEnv.get_info {} none 15 30 sampleState).1,
   (c6_generateTapos_block_selection sampleEnv sampleEnv.get_info {} none 15 30 sampleState).2.1
     (by decide),
   (c6_generateTapos_block_selection sampleEnv sampleEnv.get_info {} none 3 30 sampleState).2.2.2
     (by decide) rfl⟩

/-- C3: with a numeric `blocksBehind` and a set `useLastIrreversible`,
`transact` throws 'Use either blocksBehind or useLastIrreversible'
immediately: the state — including the trace of network calls — is returned
untouched, so no `get_info` and no fetch of any kind has been issued. -/
theorem c3_transact_mutually_exclusive_strategies (env : Env) (transaction : Transaction)
    (cfg : TransactConfig) (s0 : TrState) (b : Int)
    (hb : cfg.blocksBehind = some b) (hu : cfg.useLastIrreversible = some true) :
    transact env transaction cfg s0 =
      (Except.error "Use either blocksBehind or useLastIrreversible", s0) := by
  simp [transact, hb, hu, TrM.throwErr]

/-- C3 witness: the guard at the sample environment and an empty
transaction. -/
theorem c3_transact_mutually_exclusive_strategies_witness :
    transact sampleEnv {} { blocksBehind := some 3, useLastIrreversible := some true }
      sampleState =
      (Except.error "Use either blocksBehind or useLastIrreversible", sampleState) :=
  c3_transact_mutually_exclusive_strategies sampleEnv {}
    { blocksBehind := some 3, useLastIrreversible := some true } sampleState 3 rfl rfl

/-- C4: when at least one TAPoS field is absent and none of `blocksBehind`,
`useLastIrreversible`, `expireSeconds` is supplied, `transact` throws
'Required configuration or TAPOS fields are not present'; the caches are
untouched and the trace grows by at most the lazy chain-id `get_info`, so no
ABI fetch, serialization, signing, or broadcast has happened. -/
theorem c4_transact_incomplete_tapos_error (env : Env) (transaction : Transaction)
    (cfg : TransactConfig) (s0 : TrState)
    (hmiss : transaction.expiration = none ∨ transaction.ref_block_num = none ∨
      transaction.refBlockPrefix = none)
    (hbb : cfg.blocksBehind = none) (huli : cfg.useLastIrreversible = none)
    (hes : cfg.expireSeconds = none) :
    ∃ s1 : TrState,
      transact env transaction cfg s0 =
        (Except.error "Required configuration or TAPOS fields are not present", s1) ∧
      s1.cachedAbis = s0.cachedAbis ∧
      s1.contracts = s0.contracts ∧
      s1.trace = s0.trace ++ (if truthyStr s0.chainId then [] else [Call.getInfo]) := by
  cases hc : truthyStr s0.chainId
  · refine ⟨{ s0 with
        chainId := some env.get_info.chain_id
        trace := s0.trace ++ [Call.getInfo] }, ?_, ?_, ?_, ?_⟩ <;>
      rcases hmiss with hm | hm | hm <;>
        simp [transact, hbb, huli, hes, hc, hm, TrM.throwErr, TrM.bind_apply, TrM.pure_apply,
          TrM.emit, TrM.getSt, TrM.modifySt, bind, pure, TrM.mkBind, TrM.mkPure,
          jsTruthy, propVal, JsVal.truthy, truthyNum, hasRequiredTaposFields, JsVal.isNumber]
  · refine ⟨s0, ?_, ?_, ?_, ?_⟩ <;>
      rcases hmiss with hm | hm | hm <;>
        simp [transact, hbb, huli, hes, hc, hm, TrM.throwErr, TrM.bind_apply, TrM.pure_apply,
          TrM.emit, TrM.getSt, TrM.modifySt, bind, pure, TrM.mkBind, TrM.mkPure,
          jsTruthy, propVal, JsVal.truthy, truthyNum, hasRequiredTaposFields, JsVal.isNumber]

/-- C4 witness: a transaction missing its expiration, with an empty config,
at the sample environment. -/
theorem c4_transact_incomplete_tapos_error_witness :
    ∃ s1 : TrState,
      transact sampleEnv
        { ref_block_num := some (JsVal.vnum 5), refBlockPrefix := some (JsVal.vnum 6) }
        {} sampleState =
        (Except.error "Required configuration or TAPOS fields are not present", s1) ∧
      s1.cachedAbis = sampleState.cachedAbis ∧
      s1.contracts = sampleState.contracts ∧
      s1.trace = sampleState.trace ++ (if truthyStr sampleState.chainId then [] else [Call.getInfo]) :=
  c4_transact_incomplete_tapos_error sampleEnv
    { ref_block_num := some (JsVal.vnum 5), refBlockPrefix := some (JsVal.vnum 6) }
    {} sampleState (Or.inl rfl) rfl rfl rfl

/-- Helper: a `Map.set` makes the entry visible to a subsequent lookup of the
same key. -/
theorem lookup_mapSet {α : Type} (m : List (String × α)) (k : String) (v : α) :
    (mapSet m k v).lookup k = some v := by
  induction m with
  | nil => simp [mapSet, List.lookup]
  | cons hd tl ih =>
    rcases hd with ⟨k1, v1⟩
    by_cases h : k1 = k
    · simp [mapSet, h, List.lookup]
    · simp only [mapSet, if_neg h, List.lookup]
      have hne : (k == k1) = false := by
        simp [Ne.symm h]
      simp [hne, ih]

/-- Helper: recording one ABI fetch for an account increments that account's
fetch count. -/
theorem countAbiFetches_append_fetch (t : List Call) (a : String) :
    countAbiFetches (t ++ [Call.abiFetch a]) a = countAbiFetches t a + 1 := by
  simp [countAbiFetches, List.filter_append]

/-- C8: on an account with no cached entry, the first `getCachedAbi` call
issues exactly one provider fetch and stores the fetched pair; a second call
without reload issues no further fetch and returns the stored entry with the
state unchanged; a subsequent call with reload issues a second fetch and
overwrites the cached entry with the newly fetched pair. -/
theorem c8_getCachedAbi_caching (env : Env) (account : String) (s0 : TrState)
    (raw0 raw1 : List Nat) (abi0 abi1 : AbiDef)
    (hmiss : s0.cachedAbis.lookup account = none)
    (hcount : countAbiFetches s0.trace account = 0)
    (hf0 : env.getRawAbi account 0 = Except.ok raw0)
    (hf1 : env.getRawAbi account 1 = Except.ok raw1)
    (hd0 : rawAbiToJson env raw0 = Except.ok abi0)
    (hd1 : rawAbiToJson env raw1 = Except.ok abi1) :
    getCachedAbi env account false s0 =
      (Except.ok { rawAbi := raw0, abi := abi0 : CachedAbi },
       { s0 with
          cachedAbis := mapSet s0.cachedAbis account { rawAbi := raw0, abi := abi0 }
          trace := s0.trace ++ [Call.abiFetch account] }) ∧
    getCachedAbi env account false
      { s0 with
        cachedAbis := mapSet s0.cachedAbis account { rawAbi := raw0, abi := abi0 }
        trace := s0.trace ++ [Call.abiFetch account] } =
      (Except.ok { rawAbi := raw0, abi := abi0 : CachedAbi },
       { s0 with
          cachedAbis := mapSet s0.cachedAbis account { rawAbi := raw0, abi := abi0 }
          trace := s0.trace ++ [Call.abiFetch account] }) ∧
    getCachedAbi env account true
      { s0 with
        cachedAbis := mapSet s0.cachedAbis account { rawAbi := raw0, abi := abi0 }
        trace := s0.trace ++ [Call.abiFetch account] } =
      (Except.ok { rawAbi := raw1, abi := abi1 : CachedAbi },
       { s0 with
          cachedAbis := mapSet (mapSet s0.cachedAbis account { rawAbi := raw0, abi := abi0 })
            account { rawAbi := raw1, abi := abi1 }
          trace := s0.trace ++ [Call.abiFetch account, Call.abiFetch account] }) := by
  refine ⟨?_, ?_, ?_⟩
  · simp [getCachedAbi, hmiss, hcount, hf0, hd0, TrM.bind_apply, TrM.pure_apply,
      TrM.emit, TrM.getSt, TrM.modifySt, bind, pure, TrM.mkBind, TrM.mkPure]
  · simp [getCachedAbi, lookup_mapSet, TrM.bind_apply, TrM.pure_apply,
      TrM.emit, TrM.getSt, TrM.modifySt, bind, pure, TrM.mkBind, TrM.mkPure]
  · simp [getCachedAbi, lookup_mapSet, countAbiFetches_append_fetch, hcount, hf1, hd1,
      TrM.bind_apply, TrM.pure_apply, TrM.emit, TrM.getSt, TrM.modifySt, bind, pure,
      TrM.mkBind, TrM.mkPure, List.append_assoc]

/-- C8 witness: the caching behaviour at the sample environment, whose ABI
provider returns `[0]` on the first fetch and `[1]` on the reload. -/
theorem c8_getCachedAbi_caching_witness :
    getCachedAbi sampleEnv "acct" false sampleState =
      (Except.ok { rawAbi := [0], abi := sampleAbiDef : CachedAbi },
       { sampleState with
          cachedAbis := mapSet sampleState.cachedAbis "acct" { rawAbi := [0], abi := sampleAbiDef }
          trace := sampleState.trace ++ [Call.abiFetch "acct"] }) ∧
    getCachedAbi sampleEnv "acct" false
      { sampleState with
        cachedAbis := mapSet sampleState.cachedAbis "acct" { rawAbi := [0], abi := sampleAbiDef }
        trace := sampleState.trace ++ [Call.abiFetch "acct"] } =
      (Except.ok { rawAbi := [0], abi := sampleAbiDef : CachedAbi },
       { sampleState with
          cachedAbis := mapSet sampleState.cachedAbis "acct" { rawAbi := [0], abi := sampleAbiDef }
          trace := sampleState.trace ++ [Call.abiFetch "acct"] }) ∧
    getCachedAbi sampleEnv "acct" true
      { sampleState with
        cachedAbis := mapSet sampleState.cachedAbis "acct" { rawAbi := [0], abi := sampleAbiDef }
        trace := sampleState.trace ++ [Call.abiFetch "acct"] } =
      (Except.ok { rawAbi := [1], abi := sampleAbiDef : CachedAbi },
       { sampleState with
          cachedAbis := mapSet (mapSet sampleState.cachedAbis "acct" { rawAbi := [0], abi := sampleAbiDef })
            "acct" { rawAbi := [1], abi := sampleAbiDef }
          trace := sampleState.trace ++ [Call.abiFetch "acct", Call.abiFetch "acct"] }) :=
  c8_getCachedAbi_caching sampleEnv "acct" sampleState [0] [1] sampleAbiDef sampleAbiDef
    rfl rfl rfl rfl rfl rfl

/-- C9: `transact` never reads the per-call config's `requiredKeys` member —
runs with configs differing only there coincide exactly — and on a signing
run the keys handed to the signature provider are the constructor-supplied
override when that is set and the authority provider's answer otherwise
(`Option.getD` over the override selects between the two). -/
theorem c9_transact_ignores_config_requiredKeys (env : Env) (tx : Transaction)
    (cfg : TransactConfig) (s0 : TrState) (cid e : String) (rn rp : Int)
    (hcid : s0.chainId = some cid) (hcidne : cid ≠ "")
    (hexp : tx.expiration = some (JsVal.vstr e)) (he : e ≠ "")
    (hrbn : tx.ref_block_num = some (JsVal.vnum rn)) (hrn : rn ≠ 0)
    (hrbp : tx.refBlockPrefix = some (JsVal.vnum rp)) (hrp : rp ≠ 0)
    (hact : tx.actions = []) (hcfa : tx.context_free_actions = none)
    (hsign : cfg.sign.getD true = true)
    (hbc : cfg.broadcast = some false)
    (hguard : (cfg.blocksBehind.isSome && cfg.useLastIrreversible.getD false) = false) :
    (∀ (env2 : Env) (tx2 : Transaction) (cfg2 : TransactConfig)
        (ks : Option (List String)) (s2 : TrState),
      transact env2 tx2 { cfg2 with requiredKeys := ks } s2 = transact env2 tx2 cfg2 s2) ∧
    transact env tx cfg s0 =
      (Except.ok (TransactOut.unsent (env.sign
        { chainId := some cid
          requiredKeys := env.requiredKeys.getD
            (env.getRequiredKeys { tx with context_free_actions := some [], actions := [] }
              env.getAvailableKeys)
          serializedTransaction :=
            serializeTransaction env { tx with context_free_actions := some [], actions := [] }
          serializedContextFreeData := serializeContextFreeData tx.context_free_data
          abis := [] })),
       { s0 with trace := s0.trace ++ [Call.getAvailableKeys]
          ++ (if env.requiredKeys.isSome then [] else [Call.getRequiredKeys])
          ++ [Call.signCall (env.requiredKeys.getD
              (env.getRequiredKeys { tx with context_free_actions := some [], actions := [] }
                env.getAvailableKeys))] }) := by
  constructor
  · intro env2 tx2 cfg2 ks s2
    cases cfg2
    rfl
  · cases henv : env.requiredKeys <;>
      simp [transact, hcid, hcidne, hexp, he, hrbn, hrn, hrbp, hrp, hact, hcfa, hsign, hbc,
        hguard, henv, truthyStr, jsTruthy, propVal, JsVal.truthy, truthyNum,
        getTransactionAbis, serializeActions, jsSetOfList, trMapM,
        TrM.bind_apply, TrM.pure_apply, TrM.emit, TrM.getSt, TrM.modifySt,
        bind, pure, TrM.mkBind, TrM.mkPure, List.append_assoc]

/-- C9 witness: a config-supplied requiredKeys list changes nothing at the
sample environment, the authority provider's keys are used when no
constructor override exists, and the override is used when present. -/
theorem c9_transact_ignores_config_requiredKeys_witness :
    (transact sampleEnv sampleCompleteTx
        { { broadcast := some false : TransactConfig } with requiredKeys := some ["IGNORED"] }
        sampleState =
      transact sampleEnv sampleCompleteTx { broadcast := some false } sampleState) ∧
    (transact sampleEnv sampleCompleteTx { broadcast := some false } sampleState =
      (Except.ok (TransactOut.unsent (sampleEnv.sign
        { chainId := some "cid"
          requiredKeys := sampleEnv.requiredKeys.getD
            (sampleEnv.getRequiredKeys
              { sampleCompleteTx with context_free_actions := some [], actions := [] }
              sampleEnv.getAvailableKeys)
          serializedTransaction := serializeTransaction sampleEnv
            { sampleCompleteTx with context_free_actions := some [], actions := [] }
          serializedContextFreeData := serializeContextFreeData sampleCompleteTx.context_free_data
          abis := [] })),
       { sampleState with trace := sampleState.trace ++ [Call.getAvailableKeys]
          ++ (if sampleEnv.requiredKeys.isSome then [] else [Call.getRequiredKeys])
          ++ [Call.signCall (sampleEnv.requiredKeys.getD
              (sampleEnv.getRequiredKeys
                { sampleCompleteTx with context_free_actions := some [], actions := [] }
                sampleEnv.getAvailableKeys))] })) ∧
    (transact { sampleEnv with requiredKeys := some ["OVERRIDEKEY"] } sampleCompleteTx
        { broadcast := some false } sampleState =
      (Except.ok (TransactOut.unsent (({ sampleEnv with
            requiredKeys := some ["OVERRIDEKEY"] : Env }).sign
        { chainId := some "cid"
          requiredKeys := (some ["OVERRIDEKEY"]).getD
            (({ sampleEnv with requiredKeys := some ["OVERRIDEKEY"] : Env }).getRequiredKeys
              { sampleCompleteTx with context_free_actions := some [], actions := [] }
              ({ sampleEnv with requiredKeys := some ["OVERRIDEKEY"] : Env }).getAvailableKeys)
          serializedTransaction := serializeTransaction
            { sampleEnv with requiredKeys := some ["OVERRIDEKEY"] }
            { sampleCompleteTx with context_free_actions := some [], actions := [] }
          serializedContextFreeData := serializeContextFreeData sampleCompleteTx.context_free_data
          abis := [] })),
       { sampleState with trace := sampleState.trace ++ [Call.getAvailableKeys]
          ++ (if (some ["OVERRIDEKEY"] : Option (List String)).isSome then []
              else [Call.getRequiredKeys])
          ++ [Call.signCall ((some ["OVERRIDEKEY"]).getD
              (({ sampleEnv with requiredKeys := some ["OVERRIDEKEY"] : Env }).getRequiredKeys
                { sampleCompleteTx with context_free_actions := some [], actions := [] }
                ({ sampleEnv with requiredKeys := some ["OVERRIDEKEY"] : Env }).getAvailableKeys))] })) :=
  ⟨(c9_transact_ignores_config_requiredKeys sampleEnv sampleCompleteTx { broadcast := some false }
      sampleState "cid" "2026-01-01T00:00:00" 9 6 rfl (by decide) rfl (by decide) rfl (by decide)
      rfl (by decide) rfl rfl rfl rfl rfl).1
    sampleEnv sampleCompleteTx { broadcast := some false } (some ["IGNORED"]) sampleState,
   (c9_transact_ignores_config_requiredKeys sampleEnv sampleCompleteTx { broadcast := some false }
      sampleState "cid" "2026-01-01T00:00:00" 9 6 rfl (by decide) rfl (by decide) rfl (by decide)
      rfl (by decide) rfl rfl rfl rfl rfl).2,
   (c9_transact_ignores_config_requiredKeys { sampleEnv with requiredKeys := some ["OVERRIDEKEY"] }
      sampleCompleteTx { broadcast := some false }
      sampleState "cid" "2026-01-01T00:00:00" 9 6 rfl (by decide) rfl (by decide) rfl (by decide)
      rfl (by decide) rfl rfl rfl rfl rfl).2⟩

/-- C10: on a transaction with `ref_block_num` equal to the number 0 (with a
truthy expiration and a numeric ref-block-prefix), the truthiness test of
`transact` treats the field as missing — the value is falsy — while the
`hasRequiredTaposFields` type test accepts it: with no generation strategy
configured the call raises no configuration error and proceeds to completion,
and with `blocksBehind` and `expireSeconds` configured the TAPoS-completion
branch runs and triggers a block fetch. -/
theorem c10_transact_ref_block_num_zero (env : Env) (s0 : TrState) (cid e : String)
    (rp b es : Int)
    (hcid : s0.chainId = some cid) (hcidne : cid ≠ "") (he : e ≠ "") (hes : es ≠ 0)
    (hfetch : env.get_info.head_block_num - b ≤ env.get_info.last_irreversible_block_num) :
    (jsTruthy (some (JsVal.vnum 0)) = false) ∧
    (hasRequiredTaposFields
      { expiration := some (JsVal.vstr e), ref_block_num := some (JsVal.vnum 0)
        refBlockPrefix := some (JsVal.vnum rp) } = true) ∧
    (transact env
      { expiration := some (JsVal.vstr e), ref_block_num := some (JsVal.vnum 0)
        refBlockPrefix := some (JsVal.vnum rp) }
      { broadcast := some false, sign := some false } s0 =
      (Except.ok (TransactOut.unsent
        { signatures := []
          serializedTransaction := serializeTransaction env
            { expiration := some (JsVal.vstr e), ref_block_num := some (JsVal.vnum 0)
              refBlockPrefix := some (JsVal.vnum rp), context_free_actions := some []
              actions := [] }
          serializedContextFreeData := none }), s0)) ∧
    ((transact env
      { expiration := some (JsVal.vstr e), ref_block_num := some (JsVal.vnum 0)
        refBlockPrefix := some (JsVal.vnum rp) }
      { broadcast := some false, sign := some false, blocksBehind := some b
        expireSeconds := some es } s0).2.trace =
      s0.trace ++ [Call.getInfo, Call.getBlock (some (env.get_info.head_block_num - b))]) := by
  refine ⟨rfl, ?_, ?_, ?_⟩
  · simp [hasRequiredTaposFields, jsTruthy, propVal, JsVal.truthy, JsVal.isNumber, he]
  · simp [transact, hcid, hcidne, he, truthyStr, jsTruthy, propVal, JsVal.truthy, truthyNum,
      hasRequiredTaposFields, JsVal.isNumber,
      getTransactionAbis, serializeActions, jsSetOfList, trMapM, serializeContextFreeData,
      TrM.bind_apply, TrM.pure_apply, TrM.emit, TrM.getSt, TrM.modifySt,
      bind, pure, TrM.mkBind, TrM.mkPure, List.append_assoc]
  · simp [transact, hcid, hcidne, he, hes, truthyStr, jsTruthy, propVal, JsVal.truthy, truthyNum,
      hasRequiredTaposFields, JsVal.isNumber, generateTapos_run,
      taposBlockNumberOf, taposRefBlock, taposFetchCalls, jsSub, jsLe, hfetch,
      mergeTransactionHeader, transactionHeader,
      getTransactionAbis, serializeActions, jsSetOfList, trMapM, serializeContextFreeData,
      TrM.bind_apply, TrM.pure_apply, TrM.emit, TrM.getSt, TrM.modifySt,
      bind, pure, TrM.mkBind, TrM.mkPure, List.append_assoc]

/-- C10 witness: the zero ref-block-num behaviour at the sample environment,
with blocksBehind 15 (block 85, at or below the last irreversible number
90). -/
theorem c10_transact_ref_block_num_zero_witness :
    (jsTruthy (some (JsVal.vnum 0)) = false) ∧
    (hasRequiredTaposFields
      { expiration := some (JsVal.vstr "E"), ref_block_num := some (JsVal.vnum 0)
        refBlockPrefix := some (JsVal.vnum 6) } = true) ∧
    (transact sampleEnv
      { expiration := some (JsVal.vstr "E"), ref_block_num := some (JsVal.vnum 0)
        refBlockPrefix := some (JsVal.vnum 6) }
      { broadcast := some false, sign := some false } sampleState =
      (Except.ok (TransactOut.unsent
        { signatures := []
          serializedTransaction := serializeTransaction sampleEnv
            { expiration := some (JsVal.vstr "E"), ref_block_num := some (JsVal.vnum 0)
              refBlockPrefix := some (JsVal.vnum 6), context_free_actions := some []
              actions := [] }
          serializedContextFreeData := none }), sampleState)) ∧
    ((transact sampleEnv
      { expiration := some (JsVal.vstr "E"), ref_block_num := some (JsVal.vnum 0)
        refBlockPrefix := some (JsVal.vnum 6) }
      { broadcast := some false, sign := some false, blocksBehind := some 15
        expireSeconds := some 30 } sampleState).2.trace =
      sampleState.trace ++ [Call.getInfo,
        Call.getBlock (some (sampleEnv.get_info.head_block_num - 15))]) :=
  c10_transact_ref_block_num_zero sampleEnv sampleState "cid" "E" 6 15 30
    rfl (by decide) (by decide) (by decide) (by decide)
end Eosjs
